import Mathlib

/-!
Verification of the in-memory filesystem backend of `wwwfs` (`src/memory.rs`).

The backend has three types: `DirectoryHandle` (an `Rc<RefCell<HashMap<String,
DirectoryEntry>>>`), `FileHandle` (wrapping a `WritableFileStream`), and
`WritableFileStream` (`cursor_pos: usize` plus a shared `Rc<RefCell<Vec<u8>>>`
content buffer).  The embedding passes all mutable state explicitly:

* a single stream over a file is a `WritableFileStream` record holding the
  cursor and the contents of the shared buffer cell (file `read` observes the
  same cell, so `stream` is also the file content);
* a directory together with the identities of the file buffers its `FileHandle`
  entries share is a `MemFS` record: `root` is the directory map (an
  association list with unique keys, standing for the `HashMap`), and `files`
  is the store of content buffers; a `FileHandle` is the index of its buffer in
  that store, so two handles alias the same `Rc` buffer iff they carry the
  same index.

Rust error values are `String`s in this backend; the Rust messages wrap names
in single quotes, which the embedded messages omit.  Every fallible operation
returns its `Result` as `Except String _`, and `&mut self` methods return the
updated state paired with the result.
-/

namespace Wwwfs.Memory

/-- A byte of file content (`u8` in the source; no arithmetic is ever done on
byte values, so plain `Nat` stands in for them). -/
abbrev Byte := Nat

/-- `WritableFileStream { cursor_pos: usize, stream: Rc<RefCell<Vec<u8>>> }`;
`stream` holds the contents of the shared buffer cell. -/
structure WritableFileStream where
  cursor_pos : Nat
  stream : List Byte
deriving Repr, DecidableEq

/-- `WritableFileStream::len`: `self.stream.borrow().len()`. -/
def WritableFileStream.len (s : WritableFileStream) : Nat := s.stream.length

/-- `WritableFileStream::write_at_cursor_pos`: replaces the shared buffer with
`stream[0..cursor_pos]` followed by `data` and advances the cursor by
`data.len()`.  The Rust body always returns `Ok(())`; its slice
`stream[0..self.cursor_pos]` panics when `cursor_pos > stream.len()`, which the
embedding reports as `none`. -/
def write_at_cursor_pos (s : WritableFileStream) (data : List Byte) :
    Option WritableFileStream :=
  if s.cursor_pos ≤ s.stream.length then
    some { cursor_pos := s.cursor_pos + data.length
           stream := s.stream.take s.cursor_pos ++ data }
  else
    none

/-- `WritableFileStream::seek`: errors when `offset > self.len()`, otherwise
sets `cursor_pos := offset`.  Returns the updated `&mut self` state with the
`Result`. -/
def seek (s : WritableFileStream) (offset : Nat) :
    WritableFileStream × Except String Unit :=
  if offset > s.len then
    (s, Except.error ("cannot seek to " ++ toString offset ++
      " because the file is only " ++ toString s.len ++ " bytes long"))
  else
    ({ s with cursor_pos := offset }, Except.ok ())

/-- `WritableFileStream::close`: a no-op returning `Ok(())`. -/
def close (s : WritableFileStream) : WritableFileStream × Except String Unit :=
  (s, Except.ok ())

/-- `FileHandle::create_writable_with_options`, acting on the file content
buffer: when `keep_existing_data` is false the shared buffer cell is cleared
at once, and the returned stream (a clone of the handle's inner stream with
`cursor_pos := 0`) shares that cell.  The first component is the file buffer
as observable through `FileHandle::read` right after the call. -/
def create_writable_with_options (buffer : List Byte) (keep_existing_data : Bool) :
    List Byte × WritableFileStream :=
  let buffer := if keep_existing_data then buffer else []
  (buffer, { cursor_pos := 0, stream := buffer })

/-- `FileHandle::read`: clones and returns the shared buffer contents. -/
def read (buffer : List Byte) : Except String (List Byte) := Except.ok buffer

/-- The single-stream invariant: the cursor never points past the end of the
shared buffer. -/
abbrev cursorInv (s : WritableFileStream) : Prop :=
  s.cursor_pos ≤ s.stream.length

/-- Claim C1: on a stream whose cursor `c` is within the buffer,
`write_at_cursor_pos bytes` succeeds, rebuilds the buffer as
`buffer[0..c] ++ bytes` (dropping every old byte at position `≥ c`), and sets
the cursor to `c + bytes.length`; in particular, writing "Hello", seeking to
0, then writing "Hi" leaves the buffer equal to "Hi". -/
theorem write_at_cursor_pos_rebuilds (s : WritableFileStream) (data : List Byte)
    (h : s.cursor_pos ≤ s.stream.length) :
    write_at_cursor_pos s data =
      some { cursor_pos := s.cursor_pos + data.length
             stream := s.stream.take s.cursor_pos ++ data } ∧
    (∃ s1 s2 s3,
      write_at_cursor_pos { cursor_pos := 0, stream := [] }
          [72, 101, 108, 108, 111] = some s1 ∧
      seek s1 0 = (s2, Except.ok ()) ∧
      write_at_cursor_pos s2 [72, 105] = some s3 ∧
      s3.stream = [72, 105]) := by
  refine ⟨by simp [write_at_cursor_pos, h], ?_⟩
  refine ⟨{ cursor_pos := 5, stream := [72, 101, 108, 108, 111] },
          { cursor_pos := 0, stream := [72, 101, 108, 108, 111] },
          { cursor_pos := 2, stream := [72, 105] }, ?_, ?_, ?_, rfl⟩
  · rfl
  · rfl
  · rfl

/-- Witness for C1 at a concrete stream: cursor 1 over `[7, 8, 9]`, writing
`[5]` yields buffer `[7, 5]` and cursor 2. -/
theorem write_at_cursor_pos_rebuilds_witness :
    write_at_cursor_pos { cursor_pos := 1, stream := [7, 8, 9] } [5] =
      some { cursor_pos := 1 + 1, stream := [7, 5] } :=
  (write_at_cursor_pos_rebuilds { cursor_pos := 1, stream := [7, 8, 9] } [5]
    (by decide)).1

/-- Claim C3: `create_writable_with_options` with `keep_existing_data = false`
clears the file buffer at stream creation (before any write) and returns a
stream with cursor 0; with `keep_existing_data = true` it leaves the buffer
untouched and the returned stream's cursor is still 0, not the buffer
length. -/
theorem create_writable_with_options_spec (buffer : List Byte) :
    create_writable_with_options buffer false =
      ([], { cursor_pos := 0, stream := [] }) ∧
    create_writable_with_options buffer true =
      (buffer, { cursor_pos := 0, stream := buffer }) :=
  ⟨rfl, rfl⟩

/-- Claim C4: `seek offset` succeeds iff `offset` is at most the buffer length
(seeking to exactly the end succeeds); on success the cursor becomes `offset`,
and a failed seek leaves the stream, in particular its cursor, unchanged. -/
theorem seek_spec (s : WritableFileStream) (offset : Nat) :
    ((seek s offset).2 = Except.ok () ↔ offset ≤ s.stream.length) ∧
    (offset ≤ s.stream.length →
      seek s offset = ({ s with cursor_pos := offset }, Except.ok ())) ∧
    (s.stream.length < offset →
      (seek s offset).1 = s ∧ ∃ e, (seek s offset).2 = Except.error e) := by
  by_cases hc : s.stream.length < offset
  · have hs : seek s offset = (s, Except.error ("cannot seek to " ++
        toString offset ++ " because the file is only " ++
        toString s.stream.length ++ " bytes long")) := by
      simp [seek, WritableFileStream.len, hc]
    rw [hs]
    exact ⟨⟨fun hok => by simp at hok, fun hle => absurd hc (Nat.not_lt.mpr hle)⟩,
           fun hle => absurd hc (Nat.not_lt.mpr hle),
           fun _ => ⟨rfl, _, rfl⟩⟩
  · have hs : seek s offset = ({ s with cursor_pos := offset }, Except.ok ()) := by
      simp [seek, WritableFileStream.len, hc]
    rw [hs]
    exact ⟨⟨fun _ => Nat.not_lt.mp hc, fun _ => rfl⟩, fun _ => rfl,
           fun hlt => absurd hlt hc⟩

/-- Witness for C4 at a concrete stream: seeking to 2 on a 3-byte buffer
succeeds and moves the cursor to 2. -/
theorem seek_spec_witness :
    seek { cursor_pos := 0, stream := [1, 2, 3] } 2 =
      ({ cursor_pos := 2, stream := [1, 2, 3] }, Except.ok ()) :=
  (seek_spec { cursor_pos := 0, stream := [1, 2, 3] } 2).2.1 (by decide)

/-- Claim C8: for a single stream over a file, every successful operation
preserves `cursor_pos ≤ buffer length`; moreover after every successful write
the buffer length equals the new cursor, so the buffer length is at least any
cursor a successful write produced. -/
theorem stream_ops_preserve_cursorInv (s : WritableFileStream)
    (hs : cursorInv s) :
    (∀ buffer keep, cursorInv (create_writable_with_options buffer keep).2) ∧
    (∀ data s', write_at_cursor_pos s data = some s' →
      cursorInv s' ∧ s'.stream.length = s'.cursor_pos) ∧
    (∀ offset, cursorInv (seek s offset).1) ∧
    cursorInv (close s).1 := by
  refine ⟨fun buffer keep => ?_, fun data s' hw => ?_, fun offset => ?_, hs⟩
  · cases keep <;> simp [create_writable_with_options, cursorInv]
  · rw [write_at_cursor_pos] at hw
    by_cases hc : s.cursor_pos ≤ s.stream.length
    · rw [if_pos hc] at hw
      cases hw
      have hlen : (s.stream.take s.cursor_pos ++ data).length =
          s.cursor_pos + data.length := by
        simp [List.length_append, List.length_take, Nat.min_eq_left hc]
      exact ⟨Nat.le_of_eq hlen.symm, hlen⟩
    · rw [if_neg hc] at hw
      exact absurd hw (by simp)
  · by_cases hc : s.stream.length < offset
    · have hseek : (seek s offset).1 = s := by
        simp [seek, WritableFileStream.len, hc]
      rw [hseek]
      exact hs
    · have hseek : (seek s offset).1 = { s with cursor_pos := offset } := by
        simp [seek, WritableFileStream.len, hc]
      rw [hseek]
      exact Nat.not_lt.mp hc

/-- Witness for C8 at a concrete stream: a failed seek on a 1-byte buffer
leaves the cursor within bounds. -/
theorem stream_ops_preserve_cursorInv_witness :
    cursorInv (seek { cursor_pos := 0, stream := [1] } 5).1 :=
  (stream_ops_preserve_cursorInv { cursor_pos := 0, stream := [1] }
    (by decide)).2.2.1 5

/-- A `DirectoryEntry` of the in-memory backend: `File` carries its handle's
shared content buffer, identified by an index into the file store of `MemFS`
(the identity of the `Rc<RefCell<Vec<u8>>>` cell), and `Directory` carries the
directory's map, as an association list standing for the `HashMap`. -/
inductive DirectoryEntry where
  | File : Nat → DirectoryEntry
  | Directory : List (String × DirectoryEntry) → DirectoryEntry

/-- A directory map: `HashMap<String, DirectoryEntry>` with unique keys. -/
abbrev Dir := List (String × DirectoryEntry)

/-- `HashMap::get` / the `Occupied` test of the `entry` API on the directory
map (keys are unique in a `HashMap`, so first match is the binding). -/
def lookupEntry : Dir → String → Option DirectoryEntry
  | [], _ => none
  | (k, v) :: rest, name => if k = name then some v else lookupEntry rest name

/-- `HashMap::remove`: drops the (unique) binding of `name`, if present. -/
def removeName : Dir → String → Dir
  | [], _ => []
  | (k, v) :: rest, name =>
      if k = name then rest else (k, v) :: removeName rest name

/-- The observable state behind one in-memory `DirectoryHandle`: `root` is its
map, and `files` is the store of shared file-content buffers, so that
`FileHandle`s (indices into `files`) alias the same buffer iff they are
equal. -/
structure MemFS where
  root : Dir
  files : List (List Byte)

/-- `DirectoryHandle::get_file_handle_with_options`: an occupied `File` entry
is returned as its handle; an occupied `Directory` entry is a wrong-kind
error; a vacant name is created (a fresh empty file buffer appended to the
store) when `options.create` holds and is a not-found error otherwise. -/
def get_file_handle_with_options (fs : MemFS) (name : String) (create : Bool) :
    MemFS × Except String Nat :=
  match lookupEntry fs.root name with
  | some (DirectoryEntry.File id) => (fs, Except.ok id)
  | some (DirectoryEntry.Directory _) =>
      (fs, Except.error (name ++ " is a directory"))
  | none =>
      if create then
        ({ root := fs.root ++ [(name, DirectoryEntry.File fs.files.length)]
           files := fs.files ++ [[]] },
         Except.ok fs.files.length)
      else
        (fs, Except.error (name ++ " does not exist"))

/-- `DirectoryHandle::get_directory_handle_with_options`: symmetric to the
file case; a fresh empty directory is inserted when `options.create` holds on
a vacant name. -/
def get_directory_handle_with_options (fs : MemFS) (name : String)
    (create : Bool) : MemFS × Except String Dir :=
  match lookupEntry fs.root name with
  | some (DirectoryEntry.Directory d) => (fs, Except.ok d)
  | some (DirectoryEntry.File _) =>
      (fs, Except.error (name ++ " is a file"))
  | none =>
      if create then
        ({ fs with root := fs.root ++ [(name, DirectoryEntry.Directory [])] },
         Except.ok [])
      else
        (fs, Except.error (name ++ " does not exist"))

/-- `DirectoryHandle::remove_entry`: unconditionally removes the binding and
returns `Ok(())` (also when the name is absent). -/
def remove_entry (fs : MemFS) (name : String) : MemFS × Except String Unit :=
  ({ fs with root := removeName fs.root name }, Except.ok ())

/-- `DirectoryHandle::remove_entry_with_options`: refuses (error, no state
change) when the name is bound to a non-empty directory and `recursive` is
false; otherwise removes the binding and returns `Ok(())`. -/
def remove_entry_with_options (fs : MemFS) (name : String) (recursive : Bool) :
    MemFS × Except String Unit :=
  match lookupEntry fs.root name with
  | some (DirectoryEntry.Directory d) =>
      if !recursive && !d.isEmpty then
        (fs, Except.error ("Directory " ++ name ++ " is not empty"))
      else
        ({ fs with root := removeName fs.root name }, Except.ok ())
  | _ => ({ fs with root := removeName fs.root name }, Except.ok ())

/-- `DirectoryHandle::entries`: eagerly collects every `(name, entry)` pair of
the map into a fully materialized list of `Ok` elements and returns it as a
whole-call success. -/
def entries (fs : MemFS) :
    Except String (List (Except String (String × DirectoryEntry))) :=
  Except.ok (fs.root.map (fun p => Except.ok p))

theorem removeName_of_lookup_none :
    ∀ (l : Dir) (name : String), lookupEntry l name = none →
      removeName l name = l := by
  intro l name h
  induction l with
  | nil => rfl
  | cons p rest ih =>
    obtain ⟨k, v⟩ := p
    rw [lookupEntry] at h
    rw [removeName]
    by_cases hk : k = name
    · rw [if_pos hk] at h
      exact absurd h (by simp)
    · rw [if_neg hk] at h
      rw [if_neg hk, ih h]

theorem lookupEntry_append_self (l : Dir) (name : String) (e : DirectoryEntry)
    (h : lookupEntry l name = none) :
    lookupEntry (l ++ [(name, e)]) name = some e := by
  induction l with
  | nil => simp [lookupEntry]
  | cons p rest ih =>
    obtain ⟨k, v⟩ := p
    rw [lookupEntry] at h
    rw [List.cons_append, lookupEntry]
    by_cases hk : k = name
    · rw [if_pos hk] at h
      exact absurd h (by simp)
    · rw [if_neg hk] at h
      rw [if_neg hk]
      exact ih h

theorem lookupEntry_eq_none_of_not_mem :
    ∀ (l : Dir) (name : String), name ∉ l.map Prod.fst →
      lookupEntry l name = none := by
  intro l name h
  induction l with
  | nil => rfl
  | cons p rest ih =>
    obtain ⟨k, v⟩ := p
    rw [List.map_cons, List.mem_cons] at h
    push_neg at h
    rw [lookupEntry, if_neg (fun he => h.1 he.symm)]
    exact ih h.2

theorem lookupEntry_removeName_of_nodup :
    ∀ (l : Dir) (name : String), (l.map Prod.fst).Nodup →
      lookupEntry (removeName l name) name = none := by
  intro l name h
  induction l with
  | nil => rfl
  | cons p rest ih =>
    obtain ⟨k, v⟩ := p
    rw [List.map_cons, List.nodup_cons] at h
    obtain ⟨hk, hrest⟩ := h
    rw [removeName]
    by_cases hkn : k = name
    · rw [if_pos hkn]
      subst hkn
      exact lookupEntry_eq_none_of_not_mem rest k hk
    · rw [if_neg hkn, lookupEntry, if_neg hkn]
      exact ih hrest

/-- Whether an element of an `entries` enumeration is an `Ok` pair. -/
def elemIsOk (x : Except String (String × DirectoryEntry)) : Bool :=
  match x with
  | Except.ok _ => true
  | Except.error _ => false

/-- Counterexample to claim C2: on the empty directory (name "a" unbound),
both `remove_entry` and `remove_entry_with_options` return `Ok(())` rather
than a NotFound error. -/
theorem remove_entry_absent_returns_ok :
    remove_entry { root := [], files := [] } "a" =
      ({ root := [], files := [] }, Except.ok ()) ∧
    remove_entry_with_options { root := [], files := [] } "a" false =
      ({ root := [], files := [] }, Except.ok ()) :=
  ⟨rfl, rfl⟩

/-- Claim C2 (amended): removing a name that is not bound in the directory
succeeds with `Ok(())` and leaves the directory unchanged, for the plain
`remove_entry` and for `remove_entry_with_options` with either flag. -/
theorem remove_entry_absent_ok (fs : MemFS) (name : String)
    (h : lookupEntry fs.root name = none) :
    remove_entry fs name = (fs, Except.ok ()) ∧
    ∀ recursive, remove_entry_with_options fs name recursive =
      (fs, Except.ok ()) := by
  have hr : removeName fs.root name = fs.root :=
    removeName_of_lookup_none fs.root name h
  constructor
  · rw [remove_entry, hr]
  · intro recursive
    rw [remove_entry_with_options, h, hr]

/-- Witness for C2 (amended) at a concrete directory: removing "b" from the
empty directory returns `Ok(())` and changes nothing. -/
theorem remove_entry_absent_ok_witness :
    remove_entry { root := [], files := [] } "b" =
      ({ root := [], files := [] }, Except.ok ()) :=
  (remove_entry_absent_ok { root := [], files := [] } "b" rfl).1

/-- Claim C5: when `name` is bound to a non-empty directory,
`remove_entry_with_options` with `recursive = false` fails NotEmpty and
leaves the parent map unchanged, while `recursive = true` succeeds and
removes the binding (so the name no longer resolves). -/
theorem remove_nonempty_directory_spec (fs : MemFS) (name : String) (d : Dir)
    (hd : lookupEntry fs.root name = some (DirectoryEntry.Directory d))
    (hne : d ≠ []) (hkeys : (fs.root.map Prod.fst).Nodup) :
    remove_entry_with_options fs name false =
      (fs, Except.error ("Directory " ++ name ++ " is not empty")) ∧
    remove_entry_with_options fs name true =
      ({ fs with root := removeName fs.root name }, Except.ok ()) ∧
    lookupEntry (remove_entry_with_options fs name true).1.root name =
      none := by
  have hde : d.isEmpty = false := by
    cases d with
    | nil => exact absurd rfl hne
    | cons a l => rfl
  refine ⟨?_, ?_, ?_⟩
  · simp [remove_entry_with_options, hd, hde]
  · simp [remove_entry_with_options, hd, hde]
  · simp [remove_entry_with_options, hd, hde,
      lookupEntry_removeName_of_nodup fs.root name hkeys]

/-- Witness for C5 at a concrete directory: non-recursively removing the
non-empty subdirectory "sub" fails with the not-empty error and no state
change. -/
theorem remove_nonempty_directory_spec_witness :
    remove_entry_with_options
      { root := [("sub", DirectoryEntry.Directory [("x", DirectoryEntry.File 0)])]
        files := [[]] } "sub" false =
      ({ root := [("sub", DirectoryEntry.Directory [("x", DirectoryEntry.File 0)])]
         files := [[]] },
       Except.error ("Directory " ++ "sub" ++ " is not empty")) :=
  (remove_nonempty_directory_spec
    { root := [("sub", DirectoryEntry.Directory [("x", DirectoryEntry.File 0)])]
      files := [[]] } "sub" [("x", DirectoryEntry.File 0)] rfl
    (List.cons_ne_nil _ _) (by simp)).1

/-- Claim C6: on an empty directory, `get_file_handle(name, create := false)`
fails NotFound without modifying anything; and whenever
`get_file_handle(name, create := true)` succeeds with handle `id`, a
subsequent `get_file_handle(name, create := false)` succeeds and returns the
same `id`, i.e. a handle sharing the same underlying content buffer. -/
theorem get_file_handle_create_spec (fs : MemFS) (name : String) :
    (fs.root = [] →
      get_file_handle_with_options fs name false =
        (fs, Except.error (name ++ " does not exist"))) ∧
    (∀ fs2 id, get_file_handle_with_options fs name true =
        (fs2, Except.ok id) →
      get_file_handle_with_options fs2 name false = (fs2, Except.ok id)) := by
  constructor
  · intro h
    simp [get_file_handle_with_options, h, lookupEntry]
  · intro fs2 id hcreate
    cases hl : lookupEntry fs.root name with
    | some e =>
      cases e with
      | File j =>
        rw [get_file_handle_with_options, hl] at hcreate
        simp at hcreate
        obtain ⟨rfl, rfl⟩ := hcreate
        simp [get_file_handle_with_options, hl]
      | Directory d =>
        rw [get_file_handle_with_options, hl] at hcreate
        simp at hcreate
    | none =>
      rw [get_file_handle_with_options, hl] at hcreate
      simp at hcreate
      obtain ⟨h1, rfl⟩ := hcreate
      rw [← h1]
      simp [get_file_handle_with_options,
        lookupEntry_append_self fs.root name _ hl]

/-- Witness for C6: on the directory produced by creating "f" in the empty
directory, `get_file_handle("f", create := false)` returns the handle 0 (the
same buffer the creating call returned). -/
theorem get_file_handle_create_spec_witness :
    get_file_handle_with_options
      { root := [("f", DirectoryEntry.File 0)], files := [[]] } "f" false =
      ({ root := [("f", DirectoryEntry.File 0)], files := [[]] },
       Except.ok 0) :=
  (get_file_handle_create_spec { root := [], files := [] } "f").2
    { root := [("f", DirectoryEntry.File 0)], files := [[]] } 0 rfl

/-- Claim C7: a name bound to a Directory makes `get_file_handle` fail
WrongKind for either value of `create`, without modifying the directory;
symmetrically a name bound to a File makes `get_directory_handle` fail
WrongKind for either value of `create`. -/
theorem wrong_kind_spec (fs : MemFS) (name : String) :
    (∀ d, lookupEntry fs.root name = some (DirectoryEntry.Directory d) →
      ∀ create, get_file_handle_with_options fs name create =
        (fs, Except.error (name ++ " is a directory"))) ∧
    (∀ id, lookupEntry fs.root name = some (DirectoryEntry.File id) →
      ∀ create, get_directory_handle_with_options fs name create =
        (fs, Except.error (name ++ " is a file"))) := by
  constructor
  · intro d hd create
    simp [get_file_handle_with_options, hd]
  · intro id hid create
    simp [get_directory_handle_with_options, hid]

/-- Witness for C7 at a concrete directory: asking for a file handle on the
directory entry "d" fails with the wrong-kind error even with
`create = true`. -/
theorem wrong_kind_spec_witness :
    get_file_handle_with_options
      { root := [("d", DirectoryEntry.Directory [])], files := [] } "d" true =
      ({ root := [("d", DirectoryEntry.Directory [])], files := [] },
       Except.error ("d" ++ " is a directory")) :=
  (wrong_kind_spec { root := [("d", DirectoryEntry.Directory [])], files := [] }
    "d").1 [] rfl true

/-- Claim C9: the plain `remove_entry` has no NotEmpty guard: on a name bound
to a non-empty directory it still returns `Ok(())` and removes the binding. -/
theorem remove_entry_plain_spec (fs : MemFS) (name : String) (d : Dir)
    (_hd : lookupEntry fs.root name = some (DirectoryEntry.Directory d))
    (_hne : d ≠ []) (hkeys : (fs.root.map Prod.fst).Nodup) :
    remove_entry fs name =
      ({ fs with root := removeName fs.root name }, Except.ok ()) ∧
    lookupEntry (remove_entry fs name).1.root name = none :=
  ⟨rfl, by
    simp [remove_entry, lookupEntry_removeName_of_nodup fs.root name hkeys]⟩

/-- Witness for C9 at a concrete directory: plain removal of the non-empty
subdirectory "sub" returns `Ok(())` and drops the binding. -/
theorem remove_entry_plain_spec_witness :
    remove_entry
      { root := [("sub", DirectoryEntry.Directory [("y", DirectoryEntry.File 0)])]
        files := [[]] } "sub" =
      ({ root := [], files := [[]] }, Except.ok ()) :=
  (remove_entry_plain_spec
    { root := [("sub", DirectoryEntry.Directory [("y", DirectoryEntry.File 0)])]
      files := [[]] } "sub" [("y", DirectoryEntry.File 0)] rfl
    (List.cons_ne_nil _ _) (by simp)).1

/-- Claim C10: `entries` always succeeds, returning one element per child of
the directory map, every element an `Ok` pair; the result is a fully
materialized list computed from the map at call time (an eager snapshot), so
later mutation of the directory cannot affect it. -/
theorem entries_spec (fs : MemFS) :
    entries fs = Except.ok (fs.root.map (fun p => Except.ok p)) ∧
    (fs.root.map
      (fun p => (Except.ok p : Except String (String × DirectoryEntry)))).length
      = fs.root.length ∧
    (fs.root.map
      (fun p => (Except.ok p : Except String (String × DirectoryEntry)))).all
      elemIsOk = true := by
  refine ⟨rfl, by simp, ?_⟩
  rw [List.all_eq_true]
  intro x hx
  rw [List.mem_map] at hx
  obtain ⟨p, _, rfl⟩ := hx
  rfl

end Wwwfs.Memory
